import Mathlib

/-!
Verification of the FastAPI movie/comment CRUD service (src/main.py,
src/models.py, src/schemas.py, src/database.py).

The database is modelled as lists of movie and comment rows together with
autoincrement counters for the next assigned primary keys.  Each HTTP handler
of main.py becomes a pure Lean function from its request parameters and the
current database to a response envelope paired with the new database.  The
external OMDB metadata call inside create_movie is modelled as an input
`OmdbOutcome` (found with canonical title/genre/year, not-found, or a
transport-level failure that the handler's except-branch turns into a 400).
Row fields follow models.py: Movie.genre and Movie.year are nullable columns
(`Option`), Comment.comment is a nullable column, titles are non-null.
A response's `data` field is `Option RespData`, where `none` means the JSON
content dict of main.py has no "data" key at all (several handlers omit it)
and `RespData.null` means the key is present with value null.
-/

/-- Mirrors STATUS_SUCCESS in main.py. -/
def STATUS_SUCCESS : String := "success"

/-- Mirrors STATUS_FAILED in main.py. -/
def STATUS_FAILED : String := "fail"

/-- A row of the movies table (models.py, class Movie): id primary key,
title non-null, genre and year nullable columns. -/
structure MovieRow where
  id : Int
  title : String
  genre : Option String
  year : Option Int
deriving DecidableEq, Repr

/-- A row of the comments table (models.py, class Comment): id primary key,
movie_id foreign key, comment nullable text column. -/
structure CommentRow where
  id : Int
  movie_id : Int
  comment : Option String
deriving DecidableEq, Repr

/-- The relational state: both tables plus the autoincrement counters that
assign the next primary keys. -/
structure DB where
  movies : List MovieRow
  comments : List CommentRow
  nextMovieId : Int
  nextCommentId : Int
deriving DecidableEq, Repr

/-- The possible shapes of the "data" value in the response envelopes built
by main.py: JSON null, an object holding the assigned id, a single movie
object, a movie array, a single comment object, or a comment array.
Serialized movie objects carry exactly the keys id/title/genre/year and
comment objects the keys id/comment/movie_id, so the row structures double
as the wire objects (a `none` field serializes as JSON null). -/
inductive RespData where
  | null : RespData
  | idObj : Int → RespData
  | movieObj : MovieRow → RespData
  | movieList : List MovieRow → RespData
  | commentObj : CommentRow → RespData
  | commentList : List CommentRow → RespData
deriving DecidableEq, Repr

/-- A JSONResponse of main.py: HTTP status code plus the content dict.
`data = none` models a content dict with no "data" key. -/
structure Resp where
  statusCode : Nat
  status : String
  message : String
  data : Option RespData
deriving DecidableEq, Repr

/-- Outcome of the httpx call to the OMDB API inside create_movie:
the JSON reported Response == "False" (not found); or it carried
Title/Genre/Year fields (found, with Year parsed by int()); or the call or
the parsing raised, which the handler's except-branch reports with str(e). -/
inductive OmdbOutcome where
  | notFound : OmdbOutcome
  | found : String → String → Int → OmdbOutcome
  | failure : String → OmdbOutcome
deriving DecidableEq, Repr

/-- Character-list substring test used to model SQL ILIKE with a
percent-wrapped pattern. -/
def containsSub (pat : List Char) : List Char → Bool
  | [] => pat.isEmpty
  | c :: rest => pat.isPrefixOf (c :: rest) || containsSub pat rest

/-- Model of SQLAlchemy's `column.ilike(f"%{pat}%")`: case-insensitive
substring match (a NULL column never matches; callers handle that). -/
def ilikeMatch (pat s : String) : Bool :=
  containsSub pat.toLower.toList s.toLower.toList

/-- Request body of POST /movies ... actually of PUT /movies/{id}
(schemas.py, MovieCreate): title required, genre and year optional. -/
structure MovieCreate where
  title : String
  genre : Option String
  year : Option Int
deriving DecidableEq, Repr

/-- Request body of POST /comments (schemas.py, CommentCreate):
comment and movie_id both required. -/
structure CommentCreate where
  comment : String
  movie_id : Int
deriving DecidableEq, Repr

/-- Request body of PUT /comments/{id} (schemas.py, CommentUpdate):
only the optional comment text. -/
structure CommentUpdate where
  comment : Option String
deriving DecidableEq, Repr

/-- POST /movies (main.py create_movie).  The caller-supplied movie_title is
passed only to the OMDB query; on a found outcome the inserted row uses the
collaborator's Title/Genre/Year, on Response == "False" the handler returns
404 with an explicit null data, and on any raised exception the
except-branch returns 400 with str(e) and no data key. -/
def create_movie (movie_title : String) (omdb : OmdbOutcome) (db : DB) :
    Resp × DB :=
  match movie_title, omdb with
  | _, .notFound =>
      (⟨404, STATUS_FAILED, "Movie not found", some .null⟩, db)
  | _, .found t g y =>
      let row : MovieRow := ⟨db.nextMovieId, t, some g, some y⟩
      (⟨200, STATUS_SUCCESS, "Added movie successfully !!",
          some (.idObj db.nextMovieId)⟩,
        { db with movies := db.movies ++ [row],
                  nextMovieId := db.nextMovieId + 1 })
  | _, .failure e =>
      (⟨400, STATUS_FAILED, e, none⟩, db)

/-- GET /movies (main.py read_movies).  Python's `if genre:` and `if year:`
test truthiness, so a None or empty-string genre and a None or zero year
leave the query unfiltered; otherwise genre filters by ILIKE %genre% and
year by equality (a NULL column matches neither filter). -/
def read_movies (genre : Option String) (year : Option Int) (db : DB) :
    Resp :=
  let q1 := match genre with
    | some g =>
        if g = "" then db.movies
        else db.movies.filter (fun m =>
          match m.genre with
          | some mg => ilikeMatch g mg
          | none => false)
    | none => db.movies
  let q2 := match year with
    | some y =>
        if y = 0 then q1
        else q1.filter (fun m => m.year == some y)
    | none => q1
  ⟨200, STATUS_SUCCESS, "Get movies list successfully!",
    some (.movieList q2)⟩

/-- PUT /movies/{movie_id} (main.py update_movie).  Looks up the first row
with the id; absent ids give 404 with no data key.  Otherwise every field of
movie_data is written onto the row (setattr over movie_data.dict(), so a None
genre or year overwrites too) and committed; only then is the response built
through MovieResponse.from_orm, whose non-optional genre/year fields raise a
validation error on a None value — that exception reaches the except-branch,
yielding a 400 although the overwrite was already committed. -/
def update_movie (movie_id : Int) (movie_data : MovieCreate) (db : DB) :
    Resp × DB :=
  match db.movies.find? (fun m => m.id == movie_id) with
  | none =>
      (⟨404, STATUS_FAILED, "Movie not found", none⟩, db)
  | some m0 =>
      let movies' := db.movies.map (fun m =>
        if m.id == movie_id then
          { m with title := movie_data.title, genre := movie_data.genre,
                   year := movie_data.year }
        else m)
      let db' := { db with movies := movies' }
      match movie_data.genre, movie_data.year with
      | some g, some y =>
          (⟨200, STATUS_SUCCESS, "Update movie detail successfully!",
              some (.movieObj ⟨m0.id, movie_data.title, some g, some y⟩)⟩,
            db')
      | _, _ =>
          (⟨400, STATUS_FAILED,
              "validation error for MovieResponse", none⟩,
            db')

/-- DELETE /movies/{movie_id} (main.py delete_movie).  Absent ids give 404
with no data key; otherwise the row is deleted and, through the
cascade='all, delete' relationship of models.py (and the ondelete CASCADE
foreign key), every comment row whose movie_id is that id goes with it.
The success content dict has no "data" key. -/
def delete_movie (movie_id : Int) (db : DB) : Resp × DB :=
  match db.movies.find? (fun m => m.id == movie_id) with
  | none =>
      (⟨404, STATUS_FAILED, "Movie detail not found", none⟩, db)
  | some _ =>
      (⟨200, STATUS_SUCCESS, "Delete movie detail successfully !!", none⟩,
        { db with movies := db.movies.filter (fun m => m.id != movie_id),
                  comments :=
                    db.comments.filter (fun c => c.movie_id != movie_id) })

/-- POST /comments (main.py create_comment).  Inserts unconditionally — the
handler never checks that movie_id names an existing movie row — and returns
the assigned id.  (The repository's test database, SQLite without the
foreign-key pragma, enforces no referential check either.) -/
def create_comment (c : CommentCreate) (db : DB) : Resp × DB :=
  let row : CommentRow := ⟨db.nextCommentId, c.movie_id, some c.comment⟩
  (⟨200, STATUS_SUCCESS, "Added movie comment successfully !!",
      some (.idObj db.nextCommentId)⟩,
    { db with comments := db.comments ++ [row],
              nextCommentId := db.nextCommentId + 1 })

/-- GET /comments (main.py read_comments); same truthiness-based optional
filters as read_movies, on comment text (ILIKE) and movie_id (equality). -/
def read_comments (comment : Option String) (movie_id : Option Int)
    (db : DB) : Resp :=
  let q1 := match comment with
    | some s =>
        if s = "" then db.comments
        else db.comments.filter (fun c =>
          match c.comment with
          | some cc => ilikeMatch s cc
          | none => false)
    | none => db.comments
  let q2 := match movie_id with
    | some mid =>
        if mid = 0 then q1
        else q1.filter (fun c => c.movie_id == mid)
    | none => q1
  ⟨200, STATUS_SUCCESS, "Get comments list successfully!",
    some (.commentList q2)⟩

/-- PUT /comments/{comment_id} (main.py update_comment).  Absent ids give
404 with no data key; otherwise setattr over comment_data.dict() writes the
(possibly None) comment text onto the row, and the response repeats the
refreshed row's id, comment and movie_id. -/
def update_comment (comment_id : Int) (comment_data : CommentUpdate)
    (db : DB) : Resp × DB :=
  match db.comments.find? (fun c => c.id == comment_id) with
  | none =>
      (⟨404, STATUS_FAILED, "Comment not found", none⟩, db)
  | some c0 =>
      let comments' := db.comments.map (fun c =>
        if c.id == comment_id then { c with comment := comment_data.comment }
        else c)
      (⟨200, STATUS_SUCCESS, "Update comment successfully!",
          some (.commentObj ⟨c0.id, c0.movie_id, comment_data.comment⟩)⟩,
        { db with comments := comments' })

/-- DELETE /comments/{comment_id} (main.py delete_comment).  Absent ids give
404 with no data key; otherwise the row is removed and the success content
dict has no "data" key. -/
def delete_comment (comment_id : Int) (db : DB) : Resp × DB :=
  match db.comments.find? (fun c => c.id == comment_id) with
  | none =>
      (⟨404, STATUS_FAILED, "comment detail not found", none⟩, db)
  | some _ =>
      (⟨200, STATUS_SUCCESS, "Delete comment detail successfully !!", none⟩,
        { db with comments :=
            db.comments.filter (fun c => c.id != comment_id) })

/-- A small concrete database used by witnesses: two movies, three comments
(two attached to movie 1, one to movie 2). -/
def dbW : DB :=
  ⟨[⟨1, "Alpha", some "Sci-Fi", some 2000⟩, ⟨2, "Beta", none, none⟩],
   [⟨1, 1, some "great"⟩, ⟨2, 2, some "meh"⟩, ⟨3, 1, none⟩], 3, 4⟩

/-- The one-movie database of the update-commit scenario. -/
def db10 : DB := ⟨[⟨1, "Inception", some "Sci-Fi", some 2010⟩], [], 2, 1⟩

/-- C1: a movie-create request whose title the collaborator resolves as
found inserts exactly one new Movie row carrying the collaborator's
canonical title, genre and year (independently of the caller-supplied
title), leaves comments untouched, and reports success with the new row's
assigned id. -/
theorem create_movie_found_inserts_canonical
    (movie_title t g : String) (y : Int) (db : DB) :
    (create_movie movie_title (.found t g y) db).2.movies =
        db.movies ++ [⟨db.nextMovieId, t, some g, some y⟩] ∧
    (create_movie movie_title (.found t g y) db).2.comments = db.comments ∧
    (create_movie movie_title (.found t g y) db).1 =
        ⟨200, STATUS_SUCCESS, "Added movie successfully !!",
          some (.idObj db.nextMovieId)⟩ :=
  ⟨rfl, rfl, rfl⟩

/-- C2: a movie-create request the collaborator reports as not found
returns a 404 not-found failure and leaves the database completely
unchanged. -/
theorem create_movie_not_found_no_write (movie_title : String) (db : DB) :
    create_movie movie_title .notFound db =
      (⟨404, STATUS_FAILED, "Movie not found", some .null⟩, db) :=
  rfl

/-- C10: updating an existing movie with a replacement record whose genre is
null commits the overwrite and then fails building the response (the
response model needs non-null genre and year), so the caller gets a 400
failure although the row mutation persisted. -/
theorem update_movie_commits_before_validation :
    (update_movie 1 ⟨"Inception", none, some 2010⟩ db10).1.statusCode =
        400 ∧
    (update_movie 1 ⟨"Inception", none, some 2010⟩ db10).1.status =
        STATUS_FAILED ∧
    (update_movie 1 ⟨"Inception", none, some 2010⟩ db10).2.movies =
        [⟨1, "Inception", none, some 2010⟩] := by
  decide

/-- C3: deleting a movie id that is present removes that movie row, removes
exactly the comment rows whose movie_id is that id, keeps every other movie
and comment row, and reports success. -/
theorem delete_movie_cascade (mid : Int) (db : DB)
    (h : ∃ m ∈ db.movies, m.id = mid) :
    (delete_movie mid db).1.statusCode = 200 ∧
    (∀ m, m ∈ (delete_movie mid db).2.movies ↔
        m ∈ db.movies ∧ m.id ≠ mid) ∧
    (∀ c, c ∈ (delete_movie mid db).2.comments ↔
        c ∈ db.comments ∧ c.movie_id ≠ mid) := by
  obtain ⟨m0, hm0, hid⟩ := h
  rcases hf : db.movies.find? (fun m => m.id == mid) with _ | m1
  · rw [List.find?_eq_none] at hf
    exact absurd (by simp [hid]) (hf m0 hm0)
  · refine ⟨?_, ?_, ?_⟩ <;>
      simp [delete_movie, hf, List.mem_filter, bne_iff_ne]

/-- Witness for C3 on the concrete database dbW: deleting movie 1 succeeds,
the comment attached to movie 2 survives, and the comment attached to
movie 1 is gone. -/
theorem delete_movie_cascade_witness :
    (delete_movie 1 dbW).1.statusCode = 200 ∧
    (⟨2, 2, some "meh"⟩ : CommentRow) ∈ (delete_movie 1 dbW).2.comments ∧
    ¬ (⟨1, 1, some "great"⟩ : CommentRow) ∈ (delete_movie 1 dbW).2.comments :=
  ⟨(delete_movie_cascade 1 dbW (by decide)).1,
   ((delete_movie_cascade 1 dbW (by decide)).2.2 ⟨2, 2, some "meh"⟩).mpr
     ⟨by decide, by decide⟩,
   fun hm =>
     (((delete_movie_cascade 1 dbW (by decide)).2.2
       ⟨1, 1, some "great"⟩).mp hm).2 rfl⟩

/-- C4: an update or delete aimed at a movie id or comment id that no row
carries returns a 404 not-found failure and leaves the database unchanged,
for all four mutating endpoints. -/
theorem missing_id_not_found (mid cid : Int) (md : MovieCreate)
    (cd : CommentUpdate) (db : DB)
    (hm : ∀ m ∈ db.movies, m.id ≠ mid)
    (hc : ∀ c ∈ db.comments, c.id ≠ cid) :
    update_movie mid md db =
      (⟨404, STATUS_FAILED, "Movie not found", none⟩, db) ∧
    delete_movie mid db =
      (⟨404, STATUS_FAILED, "Movie detail not found", none⟩, db) ∧
    update_comment cid cd db =
      (⟨404, STATUS_FAILED, "Comment not found", none⟩, db) ∧
    delete_comment cid db =
      (⟨404, STATUS_FAILED, "comment detail not found", none⟩, db) := by
  have hfm : db.movies.find? (fun m => m.id == mid) = none := by
    rw [List.find?_eq_none]
    intro m hmem
    simpa using hm m hmem
  have hfc : db.comments.find? (fun c => c.id == cid) = none := by
    rw [List.find?_eq_none]
    intro c hmem
    simpa using hc c hmem
  refine ⟨?_, ?_, ?_, ?_⟩ <;>
    simp [update_movie, delete_movie, update_comment, delete_comment,
      hfm, hfc]

/-- Witness for C4 on dbW with the absent id 99 for both resources. -/
theorem missing_id_not_found_witness :
    update_movie 99 ⟨"t", none, none⟩ dbW =
      (⟨404, STATUS_FAILED, "Movie not found", none⟩, dbW) ∧
    delete_movie 99 dbW =
      (⟨404, STATUS_FAILED, "Movie detail not found", none⟩, dbW) ∧
    update_comment 99 ⟨none⟩ dbW =
      (⟨404, STATUS_FAILED, "Comment not found", none⟩, dbW) ∧
    delete_comment 99 dbW =
      (⟨404, STATUS_FAILED, "comment detail not found", none⟩, dbW) :=
  missing_id_not_found 99 99 ⟨"t", none, none⟩ ⟨none⟩ dbW
    (by decide) (by decide)

/-- C5: a movie-update request with an existing id and a replacement record
supplying all three of title, genre and year overwrites exactly those three
fields of the matching row, touches nothing else, and answers 200 with the
updated record. -/
theorem update_movie_full_replacement (mid : Int) (t gg : String) (yy : Int)
    (db : DB) (h : ∃ m ∈ db.movies, m.id = mid) :
    (update_movie mid ⟨t, some gg, some yy⟩ db).2.movies =
      db.movies.map (fun m =>
        if m.id == mid then ⟨m.id, t, some gg, some yy⟩ else m) ∧
    (update_movie mid ⟨t, some gg, some yy⟩ db).2.comments = db.comments ∧
    (update_movie mid ⟨t, some gg, some yy⟩ db).1 =
      ⟨200, STATUS_SUCCESS, "Update movie detail successfully!",
        some (.movieObj ⟨mid, t, some gg, some yy⟩)⟩ := by
  obtain ⟨m0, hm0, hid⟩ := h
  rcases hf : db.movies.find? (fun m => m.id == mid) with _ | m1
  · rw [List.find?_eq_none] at hf
    exact absurd (by simp [hid]) (hf m0 hm0)
  · have h1 : m1.id = mid := by simpa using List.find?_some hf
    refine ⟨?_, ?_, ?_⟩ <;> simp [update_movie, hf, h1]

/-- Witness for C5: updating movie 1 of dbW to the Interstellar record
returns the updated record. -/
theorem update_movie_full_replacement_witness :
    (update_movie 1 ⟨"Interstellar", some "Sci-Fi", some 2014⟩ dbW).1 =
      ⟨200, STATUS_SUCCESS, "Update movie detail successfully!",
        some (.movieObj ⟨1, "Interstellar", some "Sci-Fi", some 2014⟩)⟩ :=
  (update_movie_full_replacement 1 "Interstellar" "Sci-Fi" 2014 dbW
    (by decide)).2.2

/-- Modelled from the words of claim C6: a row satisfies the supplied
filters when every supplied (isSome) filter matches it — genre by
case-insensitive substring, year by exact equality; an omitted filter
constrains nothing. -/
def claimMatches (genre : Option String) (year : Option Int)
    (m : MovieRow) : Bool :=
  (match genre with
   | some g =>
       match m.genre with
       | some mg => ilikeMatch g mg
       | none => false
   | none => true) &&
  (match year with
   | some y => m.year == some y
   | none => true)

/-- Counterexample to C6 as stated: with year supplied as 0, the handler's
truthiness test drops the filter and returns every movie of dbW, while the
claim's exact-equality year filter would select none of them. -/
theorem read_movies_claim_cex :
    ¬ (read_movies none (some 0) dbW).data =
        some (.movieList (dbW.movies.filter (claimMatches none (some 0)))) := by
  decide

/-- The filter a movie row must pass in read_movies as implemented: a
supplied genre of "" and a supplied year of 0 are dropped by Python
truthiness, every other supplied filter acts as in claim C6. -/
def appliedMatches (genre : Option String) (year : Option Int)
    (m : MovieRow) : Bool :=
  (match genre with
   | some g =>
       if g = "" then true
       else
         match m.genre with
         | some mg => ilikeMatch g mg
         | none => false
   | none => true) &&
  (match year with
   | some y => if y = 0 then true else m.year == some y
   | none => true)

/-- C6 amended: the movie list contains exactly the rows passing all
supplied filters — genre by case-insensitive substring, year by exact
equality, combinable, omitted filters constraining nothing — except that a
supplied empty-string genre or zero year is treated as omitted; every
element is serialized as the full id/title/genre/year object and no
pagination truncates the result. -/
theorem read_movies_filters (genre : Option String) (year : Option Int)
    (db : DB) :
    read_movies genre year db =
      ⟨200, STATUS_SUCCESS, "Get movies list successfully!",
        some (.movieList (db.movies.filter (appliedMatches genre year)))⟩ := by
  rcases genre with _ | g <;> rcases year with _ | y
  · simp [read_movies]
    exact (List.filter_eq_self.mpr fun a _ => by simp [appliedMatches]).symm
  · by_cases hy : y = 0 <;> simp [read_movies, hy]
    · exact (List.filter_eq_self.mpr fun a _ => by
        simp [appliedMatches]).symm
    · exact List.filter_congr fun a _ => by simp [appliedMatches, hy]
  · by_cases hg : g = "" <;> simp [read_movies, hg]
    · exact (List.filter_eq_self.mpr fun a _ => by
        simp [appliedMatches]).symm
    · exact List.filter_congr fun a _ => by simp [appliedMatches, hg]
  · by_cases hg : g = "" <;> by_cases hy : y = 0 <;>
      simp [read_movies, hg, hy, List.filter_filter]
    · exact (List.filter_eq_self.mpr fun a _ => by
        simp [appliedMatches]).symm
    · exact List.filter_congr fun a _ => by simp [appliedMatches, hy]
    · exact List.filter_congr fun a _ => by simp [appliedMatches, hg]
    · exact List.filter_congr fun a _ => by
        simp [appliedMatches, hg, hy, Bool.and_comm]

/-- C7: updating an existing comment rewrites only its text — every row
keeps its id and movie_id, rows with other ids are untouched, movies are
untouched — and the response carries the updated record. -/
theorem update_comment_frame (cid : Int) (cd : CommentUpdate) (db : DB)
    (h : ∃ c ∈ db.comments, c.id = cid) :
    (update_comment cid cd db).2.comments =
      db.comments.map (fun c =>
        if c.id == cid then ⟨c.id, c.movie_id, cd.comment⟩ else c) ∧
    (update_comment cid cd db).2.comments.map (fun c => (c.id, c.movie_id)) =
      db.comments.map (fun c => (c.id, c.movie_id)) ∧
    (update_comment cid cd db).2.movies = db.movies ∧
    ∃ c0 ∈ db.comments, c0.id = cid ∧
      (update_comment cid cd db).1 =
        ⟨200, STATUS_SUCCESS, "Update comment successfully!",
          some (.commentObj ⟨cid, c0.movie_id, cd.comment⟩)⟩ := by
  obtain ⟨ce, hce, hceid⟩ := h
  rcases hf : db.comments.find? (fun c => c.id == cid) with _ | c1
  · rw [List.find?_eq_none] at hf
    exact absurd (by simp [hceid]) (hf ce hce)
  · have h1 : c1.id = cid := by simpa using List.find?_some hf
    have hmem : c1 ∈ db.comments := List.mem_of_find?_eq_some hf
    have hmap : ∀ l : List CommentRow,
        (l.map (fun c =>
          if c.id == cid then
            (⟨c.id, c.movie_id, cd.comment⟩ : CommentRow)
          else c)).map (fun c => (c.id, c.movie_id)) =
        l.map (fun c => (c.id, c.movie_id)) := by
      intro l
      rw [List.map_map]
      refine List.map_congr_left fun a _ => ?_
      by_cases ha : a.id = cid <;> simp [Function.comp, ha]
    refine ⟨?_, ?_, ?_, c1, hmem, h1, ?_⟩
    · simp [update_comment, hf]
    · have := hmap db.comments
      simpa [update_comment, hf] using this
    · simp [update_comment, hf]
    · simp [update_comment, hf, h1]

/-- Witness for C7: updating comment 1 of dbW keeps every id/movie_id pair
and returns the updated record. -/
theorem update_comment_frame_witness :
    (update_comment 1 ⟨some "amazing"⟩ dbW).2.comments.map
        (fun c => (c.id, c.movie_id)) =
      dbW.comments.map (fun c => (c.id, c.movie_id)) :=
  (update_comment_frame 1 ⟨some "amazing"⟩ dbW (by decide)).2.1

/-- C8: a comment-create request inserts the comment for any movie_id
whatsoever — no hypothesis relates movie_id to the movies table — and
reports success with the assigned id. -/
theorem create_comment_unconditional (c : CommentCreate) (db : DB) :
    (create_comment c db).2.comments =
        db.comments ++ [⟨db.nextCommentId, c.movie_id, some c.comment⟩] ∧
    (create_comment c db).2.movies = db.movies ∧
    (create_comment c db).1 =
        ⟨200, STATUS_SUCCESS, "Added movie comment successfully !!",
          some (.idObj db.nextCommentId)⟩ :=
  ⟨rfl, rfl, rfl⟩

/-- The envelope shape claim C9 asserts of every response: status is
"success" or "fail" and the data key is present. -/
def hasFullEnvelope (r : Resp) : Bool :=
  (r.status == STATUS_SUCCESS || r.status == STATUS_FAILED) && r.data.isSome

/-- Counterexample to C9 as stated: the not-found response of DELETE
/movies/{id} on an empty database has no "data" key in its content dict at
all, so not every response carries the full {status, message, data}
envelope. -/
theorem envelope_claim_cex :
    hasFullEnvelope (delete_movie 1 ⟨[], [], 1, 1⟩).1 = false := by
  decide

/-- Status/code discipline every handler obeys: 200 with "success", or 404
with "fail", or 400 with "fail". -/
def respOk (r : Resp) : Prop :=
  (r.statusCode = 200 ∧ r.status = STATUS_SUCCESS) ∨
  (r.statusCode = 404 ∧ r.status = STATUS_FAILED) ∨
  (r.statusCode = 400 ∧ r.status = STATUS_FAILED)

/-- C9 amended: every response of every endpoint carries a status of
"success" or "fail" and a message string, but the data key is present only
on some responses (when present it is null, an object or an array, by the
type of Resp.data); not-found conditions yield 404 with "fail", and an
unexpected internal failure yields 400 with "fail" and the raw error text
as message. -/
theorem envelope_discipline (mt e : String) (om : OmdbOutcome)
    (og oc : Option String) (oy omid : Option Int) (mid cid : Int)
    (md : MovieCreate) (cc : CommentCreate) (cd : CommentUpdate) (db : DB) :
    respOk (create_movie mt om db).1 ∧
    respOk (read_movies og oy db) ∧
    respOk (update_movie mid md db).1 ∧
    respOk (delete_movie mid db).1 ∧
    respOk (create_comment cc db).1 ∧
    respOk (read_comments oc omid db) ∧
    respOk (update_comment cid cd db).1 ∧
    respOk (delete_comment cid db).1 ∧
    (create_movie mt (.failure e) db).1 =
      ⟨400, STATUS_FAILED, e, none⟩ := by
  refine ⟨?_, ?_, ?_, ?_, ?_, ?_, ?_, ?_, rfl⟩
  · cases om <;> simp [create_movie, respOk]
  · exact Or.inl ⟨rfl, rfl⟩
  · rcases hf : db.movies.find? (fun m => m.id == mid) with _ | m1
    · simp [update_movie, hf, respOk]
    · rcases md with ⟨t, _ | g, _ | y⟩ <;> simp [update_movie, hf, respOk]
  · rcases hf : db.movies.find? (fun m => m.id == mid) with _ | m1 <;>
      simp [delete_movie, hf, respOk]
  · simp [create_comment, respOk]
  · exact Or.inl ⟨rfl, rfl⟩
  · rcases hf : db.comments.find? (fun c => c.id == cid) with _ | c1 <;>
      simp [update_comment, hf, respOk]
  · rcases hf : db.comments.find? (fun c => c.id == cid) with _ | c1 <;>
      simp [delete_comment, hf, respOk]
